import Mathlib

/-!
Shallow embedding of the session/state core of a Telegram tutoring bot
(exercise session engine, fixed-test session engine, gating validator,
chat-history tracker) together with theorems settling the specification
claims about that core.

Conventions of the embedding:
* Python dict entries keyed by `user_id` are modelled per user: a state
  record holds the entry for one fixed user, with `Option` marking key
  absence.
* Python strings are Lean `String`s; the Python string methods
  `.upper() / .lower() / .strip()`, slicing and substring tests are
  re-implemented on the character list so that proofs can evaluate them.
* Python floats are modelled as `ℚ` (the percentages computed here are
  exact small rationals).
* I/O (Telegram replies, file writes, logging) is dropped; the value
  returned to the rendering layer and the state mutation are kept.
-/

namespace EgeBot

/-- `s.upper()` restricted to the byte-level character map (A–Z/a–z and
    identity elsewhere), as a kernel-reducible function. -/
def upperStr (s : String) : String := String.mk (s.data.map Char.toUpper)

/-- `s.lower()` as a kernel-reducible function. -/
def lowerStr (s : String) : String := String.mk (s.data.map Char.toLower)

/-- `s.strip()`: remove leading and trailing whitespace. -/
def stripStr (s : String) : String :=
  String.mk (((s.data.dropWhile Char.isWhitespace).reverse.dropWhile
    Char.isWhitespace).reverse)

/-- `s[:n]` for a string. -/
def takeStr (s : String) (n : Nat) : String := String.mk (s.data.take n)

/-- Occurrence of `pat` somewhere in `l` (Python `pat in text` on char lists). -/
def occursIn (pat : List Char) : List Char → Bool
  | [] => pat.isPrefixOf []
  | c :: rest => pat.isPrefixOf (c :: rest) || occursIn pat rest

/-- Python `pat in text` for strings. -/
def containsSub (text pat : String) : Bool := occursIn pat.data text.data

/-! ## Exercise session engine (`src/exercise_manager.py`) -/

/-- `Exercise` from `exercise_manager.py` (the `created_at` timestamp and
    the unused `difficulty` default are I/O-free metadata and are dropped). -/
structure Exercise where
  exercise_id : String
  subject : String
  question : String
  options : List String
  correct_answer : String
  explanation : String
deriving DecidableEq, Repr

/-- One element of the JSON array parsed out of the generator response, as
    `_generate_exercises` sees it: each field of the object is present or
    absent, and `options` is `none` when absent or not a JSON list. -/
structure RawItem where
  question : Option String
  options : Option (List String)
  correct_answer : Option String
  explanation : Option String
deriving DecidableEq, Repr

/-- `re.sub(r"[^A-D]", "", raw.strip().upper())[:1]` from
    `_generate_exercises`. -/
def normalizeCorrect (s : String) : String :=
  String.mk (((((stripStr s).data.map Char.toUpper).filter
    (fun c => decide ('A' ≤ c) && decide (c ≤ 'D'))).take 1))

/-- The per-item validation loop body of `_generate_exercises`: `none`
    exactly when the item is skipped (`continue`) — wrong `options`
    length, unparseable `correct_answer`, or a `KeyError` on
    `data["question"]` / `data["explanation"]`.  (The `required_fields`
    loop in the source only logs: its `continue` re-enters the inner
    loop, so it filters nothing.) -/
def mkExerciseFromRaw (subject : String) (userId : Int) (i : Nat)
    (r : RawItem) : Option Exercise :=
  let options := r.options.getD []
  if options.length ≠ 4 then none
  else
    let normalized := normalizeCorrect (r.correct_answer.getD "")
    if normalized ∉ ["A", "B", "C", "D"] then none
    else
      match r.question, r.explanation with
      | some q, some e =>
          some { exercise_id := subject ++ "_" ++ toString userId ++ "_" ++ toString i
                 subject := subject
                 question := q
                 options := options
                 correct_answer := normalized
                 explanation := e }
      | _, _ => none

/-- The validation loop of `_generate_exercises` over the parsed list. -/
def buildExercises (subject : String) (userId : Int)
    (items : List RawItem) : List Exercise :=
  (items.enum).filterMap (fun p => mkExerciseFromRaw subject userId p.1 p.2)

/-- `_get_fallback_exercises`. -/
def fallbackExercises (subject : String) : List Exercise :=
  if subject = "vocabulary" then
    [ { exercise_id := subject ++ "_fallback_1", subject := subject
        question := "Choose the correct phrasal verb:\nI need to ___ my notes before the exam."
        options := ["look up", "look after", "look into", "look for"]
        correct_answer := "A"
        explanation := "'Look up' means to search for information, which fits the context of studying notes." },
      { exercise_id := subject ++ "_fallback_2", subject := subject
        question := "Complete the collocation:\nMake a ___ about your future plans."
        options := ["decision", "solution", "problem", "opinion"]
        correct_answer := "A"
        explanation := "'Make a decision' is the correct collocation in English." },
      { exercise_id := subject ++ "_fallback_3", subject := subject
        question := "Choose the correct word:\nThe weather was so ___ that we had to cancel the picnic."
        options := ["terrible", "terribly", "terribleness", "terrify"]
        correct_answer := "A"
        explanation := "'Terrible' is an adjective that describes the weather." },
      { exercise_id := subject ++ "_fallback_4", subject := subject
        question := "Select the right synonym:\nThe movie was very ___ and kept us interested."
        options := ["boring", "entertaining", "difficult", "expensive"]
        correct_answer := "B"
        explanation := "'Entertaining' means interesting and enjoyable, which fits the context." },
      { exercise_id := subject ++ "_fallback_5", subject := subject
        question := "Choose the correct word form:\nShe has a great ___ for languages."
        options := ["ability", "able", "ably", "enable"]
        correct_answer := "A"
        explanation := "'Ability' is a noun that means the power or skill to do something." } ]
  else if subject = "grammar" then
    [ { exercise_id := subject ++ "_fallback_1", subject := subject
        question := "Choose the correct tense:\nBy this time next year, I ___ university."
        options := ["will finish", "will have finished", "finish", "am finishing"]
        correct_answer := "B"
        explanation := "'Will have finished' is the future perfect tense, used for actions completed by a specific time in the future." },
      { exercise_id := subject ++ "_fallback_2", subject := subject
        question := "Select the right conditional:\nIf I ___ more time, I would travel the world."
        options := ["have", "had", "would have", "have had"]
        correct_answer := "B"
        explanation := "This is a second conditional sentence, so we use 'had' (past simple) in the if-clause." },
      { exercise_id := subject ++ "_fallback_3", subject := subject
        question := "Choose the correct article:\n___ sun rises in the east."
        options := ["A", "An", "The", "No article"]
        correct_answer := "C"
        explanation := "'The' is used with unique objects like the sun, moon, earth, etc." },
      { exercise_id := subject ++ "_fallback_4", subject := subject
        question := "Select the correct passive form:\nThe book ___ by many students last year."
        options := ["was read", "was reading", "read", "has read"]
        correct_answer := "A"
        explanation := "'Was read' is the past simple passive form, indicating the book was the object of the action." },
      { exercise_id := subject ++ "_fallback_5", subject := subject
        question := "Choose the right modal verb:\nYou ___ study harder if you want to pass the exam."
        options := ["can", "must", "should", "would"]
        correct_answer := "C"
        explanation := "'Should' is used to give advice or make recommendations." } ]
  else []

/-- Outcome of the generator call and of the pre-validation stages of
    `_generate_exercises`: `failure` covers an empty response, JSON that
    cannot be parsed (directly, after unfencing, or by bracket search), a
    parse result that is neither a list nor a dict with an `exercises`
    list, and a raised exception; `parsed items` is the successfully
    extracted JSON array. -/
inductive LLMOutcome where
  | failure
  | parsed (items : List RawItem)
deriving DecidableEq, Repr

/-- `_generate_exercises`: every failure path returns the fallback batch,
    and a parsed list whose validation yields no valid item also falls
    back; otherwise the (possibly short) validated list is returned. -/
def generateExercises (subject : String) (userId : Int)
    (outcome : LLMOutcome) : List Exercise :=
  match outcome with
  | .failure => fallbackExercises subject
  | .parsed items =>
      let exercises := buildExercises subject userId items
      if exercises.isEmpty then fallbackExercises subject else exercises

/-- `start_exercise_session` (its state writes are handled by the session
    state model below; this is the batch it stores and returns):
    `_generate_exercises` never returns `None`/empty for the two real
    subjects, and the `if not exercises` guard re-falls back otherwise. -/
def startExerciseSession (subject : String) (userId : Int)
    (outcome : LLMOutcome) : List Exercise :=
  let exercises := generateExercises subject userId outcome
  if exercises.isEmpty then fallbackExercises subject else exercises

/-! ### Per-user exercise session state and the answer callback handler -/

/-- The exercise-engine entries for one fixed user across the module-level
    dicts of `ExerciseManager` (`none` = the user is not a key) plus the
    `exercise_results` entry written by `finish_exercise_session`. -/
structure ExoState where
  active : Option (List Exercise)
  answers : List (String × String)
  currentIndex : Option Int
  sessionId : Option String
deriving DecidableEq, Repr

/-- Python dict lookup on the assoc-list model of `user_answers[user]`. -/
def lookupAnswer (key : String) (answers : List (String × String)) :
    Option String :=
  (answers.find? (fun p => p.1 = key)).map (·.2)

/-- Python dict assignment `answers[key] = v` (replace or append). -/
def setAnswer (key value : String) :
    List (String × String) → List (String × String)
  | [] => [(key, value)]
  | p :: rest =>
      if p.1 = key then (key, value) :: rest
      else p :: setAnswer key value rest

/-- Python list indexing `l[i]` including negative indices;
    `none` = `IndexError`. -/
def pyIndex {α : Type} (l : List α) (i : Int) : Option α :=
  if 0 ≤ i then l.get? i.toNat
  else if -(l.length : Int) ≤ i then l.get? (l.length - (-i).toNat)
  else none

/-- One per-item record of the dict built by `finish_exercise_session`. -/
structure ItemResult where
  exercise_id : String
  question : String
  user_answer : String
  correct_answer : String
  is_correct : Bool
  explanation : String
  options : List String
deriving DecidableEq, Repr

/-- The result dict returned by `finish_exercise_session` on success. -/
structure SessionResults where
  total_questions : Nat
  correct_answers : Nat
  percentage : ℚ
  level : String
  results : List ItemResult
deriving DecidableEq, Repr

/-- Return value of `finish_exercise_session`: the
    `{"error": "No active exercise session"}` dict or the results dict. -/
inductive FinishResult where
  | noSession
  | done (r : SessionResults)
deriving DecidableEq, Repr

/-- The success-level ladder of `finish_exercise_session`. -/
def levelOf (percentage : ℚ) : String :=
  if percentage ≥ 80 then "Отлично! 🎉"
  else if percentage ≥ 60 then "Хорошо! 👍"
  else if percentage ≥ 40 then "Удовлетворительно 📚"
  else "Требует улучшения 💪"

/-- `finish_exercise_session` for the fixed user: no-session error when the
    user is not a key of `active_exercises`; otherwise builds the per-item
    records (case-insensitive compare of the answer stored under the
    exercise's own id, missing answer = `""`), the count, the percentage
    and the level, and deletes the user's `active_exercises`,
    `user_answers` and `session_ids` entries. -/
def finishExerciseSession (st : ExoState) : FinishResult × ExoState :=
  match st.active with
  | none => (.noSession, st)
  | some exercises =>
      let results := exercises.map (fun ex =>
        let user_answer := (lookupAnswer ex.exercise_id st.answers).getD ""
        { exercise_id := ex.exercise_id
          question := ex.question
          user_answer := user_answer
          correct_answer := ex.correct_answer
          is_correct := upperStr user_answer = upperStr ex.correct_answer
          explanation := ex.explanation
          options := ex.options : ItemResult })
      let correct_count := (results.filter (·.is_correct)).length
      let total_count := exercises.length
      let percentage : ℚ :=
        if total_count > 0 then (correct_count : ℚ) / (total_count : ℚ) * 100 else 0
      (.done { total_questions := total_count
               correct_answers := correct_count
               percentage := percentage
               level := levelOf percentage
               results := results },
       { st with active := none, answers := [], sessionId := none })

/-- What `handle_exercise_answer` does with an `ex:<sid>:<idx>:<letter>`
    callback after the four fields have been split and the index parsed. -/
inductive AnswerOutcome where
  | staleSession
  | noActive
  | outOfRange
  | raisedError
  | duplicate
  | accepted (finished : Bool)
deriving DecidableEq, Repr

/-- `get_short_session_id`: returns the first six characters of the user's
    session id, creating a fresh id (`freshSid`, the sandboxed `uuid4`)
    when the user has none. -/
def getShortSessionId (freshSid : String) (st : ExoState) :
    String × ExoState :=
  match st.sessionId with
  | some sid => (takeStr sid 6, st)
  | none => (takeStr freshSid 6, { st with sessionId := some freshSid })

/-- `handle_exercise_answer` (`handlers.py`) after callback parsing:
    session-token check, active-session check, the `current_index >=
    len(exercises)` range check, Python indexing of the exercise list
    (negative indices wrap; an `IndexError` is swallowed by
    `handle_async_error` with no state change), the duplicate-answer
    guard on the derived key `subject_user_index`, storage via
    `submit_answer`, cursor update, and session finish after the last
    item (`finish_exercise_session` then `reset_current_index`). -/
def handleExerciseAnswer (userId : Int) (freshSid : String)
    (sessionPrefix : String) (idx : Int) (answer : String)
    (st : ExoState) : AnswerOutcome × ExoState :=
  let (currentSession, st1) := getShortSessionId freshSid st
  if sessionPrefix ≠ currentSession then (.staleSession, st1)
  else
    match st1.active with
    | none => (.noActive, st1)
    | some exercises =>
        if idx ≥ (exercises.length : Int) then (.outOfRange, st1)
        else
          match pyIndex exercises idx with
          | none => (.raisedError, st1)
          | some currentExercise =>
              let shortExerciseId :=
                currentExercise.subject ++ "_" ++ toString userId ++ "_" ++ toString idx
              if (lookupAnswer shortExerciseId st1.answers).isSome then
                (.duplicate, st1)
              else
                let st2 := { st1 with answers := setAnswer shortExerciseId answer st1.answers }
                let nextIndex := idx + 1
                let st3 := { st2 with currentIndex := some nextIndex }
                if nextIndex < (exercises.length : Int) then
                  (.accepted false, st3)
                else
                  let (_, st4) := finishExerciseSession st3
                  (.accepted true, { st4 with currentIndex := none })

/-! ## Chat history tracker (`src/bot/handlers.py`) -/

/-- One entry of `user_chat_history[user]`. -/
structure ChatMsg where
  role : String
  content : String
deriving DecidableEq, Repr

/-- `add_to_chat_history`: append, then keep the last 20 entries when the
    list has grown past 20. -/
def addToChatHistory (msg : ChatMsg) (history : List ChatMsg) : List ChatMsg :=
  let h := history ++ [msg]
  if h.length > 20 then h.drop (h.length - 20) else h

/-- The transcript after a sequence of appends starting from an absent
    entry (`user_chat_history.get(user, [])` of a fresh user). -/
def chatHistoryAfter (msgs : List ChatMsg) : List ChatMsg :=
  msgs.foldl (fun h m => addToChatHistory m h) []

/-! ## Fixed test session engine (`src/test_manager.py`) -/

/-- One question dict of the fixed test bank (`section` is a Lean keyword,
    so the field is `sectionName`; fields the code reads with
    `.get(k, default)` are modelled as always-present strings holding that
    text or the default). -/
structure TestQuestion where
  id : Int
  sectionName : String
  question : String
  options : List String
  explanation : String
  correct_answer : String
deriving DecidableEq, Repr

/-- `_infer_topic`: first-match keyword heuristic over the lower-cased
    concatenation of question, explanation and the options. -/
def inferTopic (sectionName question explanation : String)
    (options : List String) : String :=
  let text := lowerStr (question ++ " " ++ explanation ++ " " ++ String.intercalate " " options)
  if sectionName = "grammar" then
    if ["past perfect", "by the time", "had "].any (containsSub text) then
      "Tenses: Past Perfect"
    else if ["future continuous", "will be", "this time next"].any (containsSub text) then
      "Tenses: Future Continuous"
    else if ["present perfect", "yet", "have ", "has "].any (containsSub text) then
      "Tenses: Present Perfect"
    else if ["conditional", "if i", "would "].any (containsSub text) then
      "Conditionals (II)"
    else if ["mustn\x27t", "mustn\x27", "mustn", "must not", "must ", "should ", "have to", "modal"].any (containsSub text) then
      "Modals"
    else if ["reported speech", "asked me where", "indirect speech"].any (containsSub text) then
      "Reported Speech"
    else if ["article", " the ", " a ", " an "].any (containsSub text) then
      "Articles"
    else if ["passive", "was read", "is made", "were "].any (containsSub text) then
      "Passive Voice"
    else if ["preposition", "in ", "on ", "at ", "for "].any (containsSub text) then
      "Prepositions"
    else "Grammar: Other"
  else if sectionName = "vocabulary" then
    if ["phrasal", "look up", "look after", "look into", "look for"].any (containsSub text) then
      "Vocabulary: Phrasal Verbs"
    else if ["collocation", "make a decision", "take", "do "].any (containsSub text) then
      "Vocabulary: Collocations"
    else if ["word formation", "-tion", "-ment", "prefix", "suffix"].any (containsSub text) then
      "Vocabulary: Word Formation"
    else if ["synonym", "antonym", "closest in meaning"].any (containsSub text) then
      "Vocabulary: Synonyms/Antonyms"
    else if ["idiom", "open-minded", "piece of cake"].any (containsSub text) then
      "Vocabulary: Idioms"
    else "Vocabulary: Other"
  else
    match sectionName.data with
    | [] => ""
    | c :: rest => String.mk (Char.toUpper c :: rest.map Char.toLower)

/-- One entry of `test['answers']` as appended by `process_answer`. -/
structure AnswerEntry where
  question_id : Int
  user_answer : String
  correct_answer : String
  is_correct : Bool
  sectionName : String
  topic : String
deriving DecidableEq, Repr

/-- `active_tests[user]`: question list copied from the bank, cursor,
    score and the answer log. -/
structure TestSession where
  questions : List TestQuestion
  current_question : Nat
  score : Nat
  answers : List AnswerEntry
deriving DecidableEq, Repr

/-- `start_test_for_user` given the loaded bank. -/
def startTestForUser (bank : List TestQuestion) : TestSession :=
  { questions := bank, current_question := 0, score := 0, answers := [] }

/-- `get_current_question` on the per-user entry. -/
def getCurrentQuestion (t : Option TestSession) : Option TestQuestion :=
  match t with
  | none => none
  | some s => s.questions.get? s.current_question

/-- `process_answer` on an existing session: no-op past the last question;
    otherwise append the log entry for the question at the cursor, count
    the score on an exact label match, and advance the cursor. -/
def processAnswer (answer : String) (s : TestSession) : TestSession :=
  if h : s.current_question < s.questions.length then
    let q := s.questions.get ⟨s.current_question, h⟩
    let topic := inferTopic q.sectionName q.question q.explanation q.options
    { s with
      answers := s.answers ++
        [{ question_id := q.id
           user_answer := answer
           correct_answer := q.correct_answer
           is_correct := answer = q.correct_answer
           sectionName := q.sectionName
           topic := topic }]
      score := s.score + (if answer = q.correct_answer then 1 else 0)
      current_question := s.current_question + 1 }
  else s

/-- A whole run of `process_answer` calls on a session. -/
def runAnswers (answers : List String) (s : TestSession) : TestSession :=
  answers.foldl (fun t a => processAnswer a t) s

/-- `is_test_completed` on an existing session. -/
def isTestCompleted (s : TestSession) : Bool :=
  s.current_question ≥ s.questions.length

/-- First-occurrence deduplication (the key order of a Python `dict`
    built by repeated insertion). -/
def uniqueKeys : List String → List String
  | [] => []
  | x :: xs => x :: (uniqueKeys xs).filter (fun y => y ≠ x)

/-- Python `dict` key list of an aggregation keyed by `f` over the log:
    first-occurrence order, no duplicates. -/
def statKeys (f : AnswerEntry → String) (answers : List AnswerEntry) :
    List String :=
  uniqueKeys (answers.map f)

/-- `stats['total']` of the aggregation keyed by `f` at key `k`. -/
def statTotal (f : AnswerEntry → String) (k : String)
    (answers : List AnswerEntry) : Nat :=
  (answers.filter (fun a => f a = k)).length

/-- `stats['correct']` of the aggregation keyed by `f` at key `k`. -/
def statCorrect (f : AnswerEntry → String) (k : String)
    (answers : List AnswerEntry) : Nat :=
  (answers.filter (fun a => f a = k && a.is_correct)).length

/-- The results dict built by `finish_test` (the persistence side effects
    on the user record and the results file are I/O and are outside this
    state model). -/
structure TestResults where
  total_questions : Nat
  score : Nat
  percentage : ℚ
  answers : List AnswerEntry
  section_stats : List (String × Nat × Nat)
  topic_stats : List (String × Nat × Nat)
  strengths : List String
  weaknesses : List String
deriving DecidableEq, Repr

/-- `finish_test` on the per-user entry: `None` when the user has no
    active test; otherwise the aggregated results, with the strength /
    weakness split at accuracy `≥ 0.7` / `≤ 0.6` per topic, and the
    session entry deleted. -/
def finishTest (t : Option TestSession) : Option TestResults × Option TestSession :=
  match t with
  | none => (none, none)
  | some s =>
      let total_questions := s.questions.length
      let percentage : ℚ :=
        if total_questions > 0 then ((s.score : ℚ) / (total_questions : ℚ)) * 100 else 0
      let topics := statKeys (·.topic) s.answers
      let strengths := topics.filter (fun tp =>
        0 < statTotal (·.topic) tp s.answers ∧
          ((statCorrect (·.topic) tp s.answers : ℚ) / (statTotal (·.topic) tp s.answers : ℚ)) ≥ 7/10)
      let weaknesses := topics.filter (fun tp =>
        0 < statTotal (·.topic) tp s.answers ∧
          ¬ (((statCorrect (·.topic) tp s.answers : ℚ) / (statTotal (·.topic) tp s.answers : ℚ)) ≥ 7/10) ∧
          ((statCorrect (·.topic) tp s.answers : ℚ) / (statTotal (·.topic) tp s.answers : ℚ)) ≤ 6/10)
      (some { total_questions := total_questions
              score := s.score
              percentage := percentage
              answers := s.answers
              section_stats := (statKeys (·.sectionName) s.answers).map (fun k =>
                (k, statTotal (·.sectionName) k s.answers, statCorrect (·.sectionName) k s.answers))
              topic_stats := topics.map (fun k =>
                (k, statTotal (·.topic) k s.answers, statCorrect (·.topic) k s.answers))
              strengths := strengths
              weaknesses := weaknesses },
       none)

/-- The `test_continue` branch of `handle_test_actions`: either re-send the
    current question, or — when there is none — hand whatever `finish_test`
    returned (possibly `None`) straight to the results renderer. -/
inductive TestActionOutcome where
  | sendQuestion (q : TestQuestion)
  | showResults (r : Option TestResults)
deriving DecidableEq, Repr

/-- `handle_test_actions` for `action == "test_continue"`. -/
def testContinue (t : Option TestSession) :
    TestActionOutcome × Option TestSession :=
  match getCurrentQuestion t with
  | some q => (.sendQuestion q, t)
  | none =>
      let (r, t2) := finishTest t
      (.showResults r, t2)

/-! ## Test-completion gate (`src/utils/validators.py`,
    `src/database/manager.py`) -/

/-- The persisted files the gate consults, for one fixed user:
    `userFile` is `data/users/<id>.json` (`none` = absent, `some none` =
    unparseable, `some (some b)` = parsed record with
    `has_completed_test = b`); `testFile` is `data/tests/user_<id>.json`
    with the persisted results list. -/
structure GateEnv where
  activeTest : Bool
  userFile : Option (Option Bool)
  testFile : Option (Option (List TestResults))
deriving Repr

/-- `DatabaseManager.has_completed_test`: the stored flag; an absent or
    corrupt user file loads as a fresh default record with the flag
    `False`. -/
def hasCompletedTestDB (userFile : Option (Option Bool)) : Bool :=
  match userFile with
  | some (some b) => b
  | _ => false

/-- `DatabaseManager.mark_test_completed`: load-or-default, set the flag,
    save. -/
def markTestCompleted (env : GateEnv) : GateEnv :=
  { env with userFile := some (some true) }

/-- What the `require_test_completion` wrapper decides before (or instead
    of) invoking the wrapped command handler. -/
inductive GateDecision where
  | blockedActiveTest
  | blockedRedirect
  | allowed
deriving DecidableEq, Repr

/-- `require_test_completion`: block while a test is active; pass users
    whose flag is set; otherwise self-heal from a non-empty persisted
    results file (setting the flag) and pass, or block with the
    redirect-to-test prompt when the file is absent, unreadable or
    empty. -/
def requireTestCompletion (env : GateEnv) : GateDecision × GateEnv :=
  if env.activeTest then (.blockedActiveTest, env)
  else if hasCompletedTestDB env.userFile then (.allowed, env)
  else
    match env.testFile with
    | none => (.blockedRedirect, env)
    | some none => (.blockedRedirect, env)
    | some (some results) =>
        if results.length > 0 then (.allowed, markTestCompleted env)
        else (.blockedRedirect, env)

/-! ## Helper lemmas -/

/-- A validated item always carries exactly 4 options and a normalized
    answer letter in A–D. -/
theorem mkExerciseFromRaw_shape {subject : String} {userId : Int} {i : Nat}
    {r : RawItem} {ex : Exercise}
    (h : mkExerciseFromRaw subject userId i r = some ex) :
    ex.options.length = 4 ∧ ex.correct_answer ∈ (["A", "B", "C", "D"] : List String) := by
  unfold mkExerciseFromRaw at h
  by_cases h4 : (r.options.getD []).length ≠ 4
  · simp [h4] at h
  · simp only [h4, if_false] at h
    by_cases hn : normalizeCorrect (r.correct_answer.getD "") ∉ (["A", "B", "C", "D"] : List String)
    · simp [hn] at h
    · simp only [hn, if_false] at h
      push_neg at h4 hn
      match hq : r.question, he : r.explanation with
      | some q, some e =>
        simp only [hq, he] at h
        cases h
        exact ⟨h4, hn⟩
      | some q, none => simp [hq, he] at h
      | none, _ => simp [hq] at h

/-- Every exercise in a batch built from parsed generator output is
    well-formed. -/
theorem buildExercises_shape {subject : String} {userId : Int}
    {items : List RawItem} {ex : Exercise}
    (h : ex ∈ buildExercises subject userId items) :
    ex.options.length = 4 ∧ ex.correct_answer ∈ (["A", "B", "C", "D"] : List String) := by
  unfold buildExercises at h
  rw [List.mem_filterMap] at h
  obtain ⟨p, _, hp⟩ := h
  exact mkExerciseFromRaw_shape hp

/-- The two real fallback batches have 5 well-formed items each. -/
theorem fallbackExercises_shape {subject : String}
    (hs : subject = "vocabulary" ∨ subject = "grammar") :
    (fallbackExercises subject).length = 5 ∧
      ∀ ex ∈ fallbackExercises subject,
        ex.options.length = 4 ∧ ex.correct_answer ∈ (["A", "B", "C", "D"] : List String) := by
  rcases hs with hs | hs <;> subst hs <;> exact ⟨by rfl, by decide⟩

/-! ## Claims -/

/-- Three syntactically valid generator items (the concrete generator
    output refuting claim C1). -/
def c1RawItems : List RawItem :=
  [ { question := some "Pick one", options := some ["w", "x", "y", "z"]
      correct_answer := some "A", explanation := some "because" },
    { question := some "Pick two", options := some ["w", "x", "y", "z"]
      correct_answer := some "B", explanation := some "because" },
    { question := some "Pick three", options := some ["w", "x", "y", "z"]
      correct_answer := some "C", explanation := some "because" } ]

/-- C1 (counterexample): a generator response that parses to a JSON array
    of only three valid items yields a 3-item batch, not the 5-item batch
    the claim asserts for every session start. -/
theorem C1_counterexample_short_batch :
    (startExerciseSession "vocabulary" 1 (LLMOutcome.parsed c1RawItems)).length = 3 ∧
      (startExerciseSession "vocabulary" 1 (LLMOutcome.parsed c1RawItems)).length ≠ 5 := by
  constructor <;> decide

/-- C1 (amended): every item of every batch handed out by
    `start_exercise_session` for the real subjects has exactly 4 options
    and a correct letter among A–D, and a generator-contract failure
    (empty/unparseable/malformed response, or no single valid item)
    yields the fixed 5-item fallback batch; however, a parsed generator
    response containing between 1 and 4 valid items yields a batch of
    that shorter length rather than exactly 5. -/
theorem C1_batch_items_well_formed (subject : String) (userId : Int)
    (outcome : LLMOutcome)
    (hs : subject = "vocabulary" ∨ subject = "grammar") :
    (∀ ex ∈ startExerciseSession subject userId outcome,
        ex.options.length = 4 ∧ ex.correct_answer ∈ (["A", "B", "C", "D"] : List String)) ∧
      (outcome = LLMOutcome.failure →
        startExerciseSession subject userId outcome = fallbackExercises subject ∧
          (startExerciseSession subject userId outcome).length = 5) ∧
      (∀ items, outcome = LLMOutcome.parsed items →
        buildExercises subject userId items = [] →
        startExerciseSession subject userId outcome = fallbackExercises subject ∧
          (startExerciseSession subject userId outcome).length = 5) := by
  obtain ⟨hlen, hfb⟩ := fallbackExercises_shape hs
  have hfb_ne : (fallbackExercises subject).isEmpty = false := by
    rcases hs with h | h <;> subst h <;> decide
  constructor
  · intro ex hex
    cases outcome with
    | failure =>
      simp only [startExerciseSession, generateExercises, hfb_ne,
        Bool.false_eq_true, if_false] at hex
      exact hfb ex hex
    | parsed items =>
      by_cases hbe : (buildExercises subject userId items).isEmpty = true
      · simp only [startExerciseSession, generateExercises, hbe, if_true, hfb_ne,
          Bool.false_eq_true, if_false] at hex
        exact hfb ex hex
      · simp only [startExerciseSession, generateExercises, hbe,
          Bool.false_eq_true, if_false] at hex
        exact buildExercises_shape hex
  · constructor
    · intro ho
      subst ho
      simp only [startExerciseSession, generateExercises, hfb_ne,
        Bool.false_eq_true, if_false]
      exact ⟨trivial, hlen⟩
    · intro items ho hb
      subst ho
      simp only [startExerciseSession, generateExercises, hb, List.isEmpty_nil,
        if_true, hfb_ne, Bool.false_eq_true, if_false]
      exact ⟨trivial, hlen⟩

/-- A parsed generator array whose single item fails validation (three
    options and a bad answer letter), used to instantiate the C1
    witness. -/
def c1InvalidItems : List RawItem :=
  [ { question := some "Broken", options := some ["x", "y", "z"]
      correct_answer := some "E", explanation := some "none" } ]

/-- C1 witness: the amended theorem applied to a concrete failing
    generator call and to a concrete parsed response with no valid
    item. -/
theorem C1_batch_items_well_formed_witness :
    startExerciseSession "vocabulary" 9 LLMOutcome.failure =
      fallbackExercises "vocabulary" ∧
    startExerciseSession "grammar" 9 (LLMOutcome.parsed c1InvalidItems) =
      fallbackExercises "grammar" :=
  ⟨((C1_batch_items_well_formed "vocabulary" 9 LLMOutcome.failure
      (Or.inl rfl)).2.1 rfl).1,
   ((C1_batch_items_well_formed "grammar" 9 (LLMOutcome.parsed c1InvalidItems)
      (Or.inr rfl)).2.2 c1InvalidItems rfl (by decide)).1⟩

/-- Looking a key up right after storing it yields the stored value. -/
theorem lookupAnswer_setAnswer_self (k v : String) :
    ∀ answers : List (String × String),
      lookupAnswer k (setAnswer k v answers) = some v := by
  intro answers
  induction answers with
  | nil => simp [lookupAnswer, setAnswer]
  | cons p rest ih =>
      by_cases hp : p.1 = k
      · simp [lookupAnswer, setAnswer, hp]
      · simp only [setAnswer, if_neg hp]
        simpa [lookupAnswer, List.find?_cons, hp] using ih

/-- A concrete mid-session state: a vocabulary fallback batch, no answer
    stored yet. -/
def c2State : ExoState :=
  { active := some (fallbackExercises "vocabulary")
    answers := []
    currentIndex := some (0 : Int)
    sessionId := some "abcdef0000" }

/-- C2 (counterexample): the claim promises that every index outside
    `[0, len(items))` is rejected as out-of-range without mutating state,
    but the handler only checks `index >= len(exercises)`; Python's
    negative indexing then accepts index `-1`, stores an answer under the
    derived key `vocabulary_7_-1`, and moves the cursor. -/
theorem C2_counterexample_negative_index :
    handleExerciseAnswer 7 "ffffffffff" "abcdef" (-1) "A" c2State =
      (AnswerOutcome.accepted false,
        { active := some (fallbackExercises "vocabulary")
          answers := [("vocabulary_7_-1", "A")]
          currentIndex := some (0 : Int)
          sessionId := some "abcdef0000" }) ∧
      (handleExerciseAnswer 7 "ffffffffff" "abcdef" (-1) "A" c2State).2.answers ≠
        c2State.answers := by
  constructor <;> decide

/-- C2 (amended): answer submission is idempotent per `(user, item_index)`
    via the derived key `subject_user_index` — after an accepted
    submission for an index, a second submission for the same index is
    reported as duplicate and leaves all state unchanged — and an index
    `≥ len(items)` is rejected as out-of-range without mutating state;
    however, a negative index is not rejected: Python list indexing
    accepts `-len ≤ index ≤ -1` and the submission is stored. -/
theorem C2_submission_idempotent (userId : Int)
    (freshSid sessionPrefix : String) (idx : Int) (answer : String)
    (st : ExoState) :
    (∀ sid exercises, st.sessionId = some sid →
        sessionPrefix = takeStr sid 6 → st.active = some exercises →
        idx ≥ (exercises.length : Int) →
        handleExerciseAnswer userId freshSid sessionPrefix idx answer st =
          (.outOfRange, st)) ∧
    (∀ sid exercises ex, st.sessionId = some sid →
        sessionPrefix = takeStr sid 6 → st.active = some exercises →
        ¬ idx ≥ (exercises.length : Int) → pyIndex exercises idx = some ex →
        (lookupAnswer (ex.subject ++ "_" ++ toString userId ++ "_" ++ toString idx)
            st.answers).isSome = true →
        handleExerciseAnswer userId freshSid sessionPrefix idx answer st =
          (.duplicate, st)) := by
  constructor
  · intro sid exercises hsid hp hact hge
    subst hp
    simp [handleExerciseAnswer, getShortSessionId, hsid, hact, hge]
  · intro sid exercises ex hsid hp hact hge hpi hdup
    subst hp
    simp [handleExerciseAnswer, getShortSessionId, hsid, hact, hge, hpi, hdup]

/-- C2 witness: the amended theorem at concrete inputs — an in-range
    repeat is a duplicate leaving state unchanged and index 5 of a 5-item
    batch is out of range. -/
theorem C2_submission_idempotent_witness :
    handleExerciseAnswer 7 "ffffffffff" "abcdef" 5 "A" c2State =
      (AnswerOutcome.outOfRange, c2State) ∧
    handleExerciseAnswer 7 "ffffffffff" "abcdef" 0 "B"
        { active := some (fallbackExercises "vocabulary")
          answers := [("vocabulary_7_0", "A")]
          currentIndex := some (1 : Int)
          sessionId := some "abcdef0000" } =
      (AnswerOutcome.duplicate,
        { active := some (fallbackExercises "vocabulary")
          answers := [("vocabulary_7_0", "A")]
          currentIndex := some (1 : Int)
          sessionId := some "abcdef0000" }) := by
  constructor
  · exact (C2_submission_idempotent 7 "ffffffffff" "abcdef" 5 "A" c2State).1
      "abcdef0000" (fallbackExercises "vocabulary") rfl (by decide)
      rfl (by decide)
  · exact (C2_submission_idempotent 7 "ffffffffff" "abcdef" 0 "B"
      { active := some (fallbackExercises "vocabulary")
        answers := [("vocabulary_7_0", "A")]
        currentIndex := some (1 : Int)
        sessionId := some "abcdef0000" }).2
      "abcdef0000" (fallbackExercises "vocabulary")
      ((fallbackExercises "vocabulary").get ⟨0, by decide⟩)
      rfl (by decide) rfl (by decide) (by decide) (by decide)

/-- C3 (confirmed): a callback whose 6-character session prefix differs
    from the prefix of the user's current session token is rejected as
    stale with the whole per-user state (active exercises, answers,
    current index, session token) unchanged. -/
theorem C3_stale_session_rejected (userId : Int)
    (freshSid sessionPrefix : String) (idx : Int) (answer : String)
    (st : ExoState) (sid : String) (hsid : st.sessionId = some sid)
    (hp : sessionPrefix ≠ takeStr sid 6) :
    handleExerciseAnswer userId freshSid sessionPrefix idx answer st =
      (.staleSession, st) := by
  simp [handleExerciseAnswer, getShortSessionId, hsid, hp]

/-- C3 witness: a concrete stale prefix is rejected without a state
    change. -/
theorem C3_stale_session_rejected_witness :
    handleExerciseAnswer 7 "ffffffffff" "zzzzzz" 0 "A" c2State =
      (AnswerOutcome.staleSession, c2State) :=
  C3_stale_session_rejected 7 "ffffffffff" "zzzzzz" 0 "A" c2State
    "abcdef0000" rfl (by decide)

/-- C4 (confirmed): finishing with no active session yields the explicit
    no-session error and touches nothing; finishing an active session
    reports per-item correctness by case-insensitive letter comparison,
    the correct count, the percentage, the level tier (≥80 % excellent,
    ≥60 % good, ≥40 % fair, else needs improvement — the code's Russian
    strings), and clears the user's items, answers and session token. -/
theorem C4_finish_reports_and_clears (st : ExoState) :
    (st.active = none → finishExerciseSession st = (.noSession, st)) ∧
    ∀ exercises, st.active = some exercises →
      ∃ r st2, finishExerciseSession st = (.done r, st2) ∧
        st2.active = none ∧ st2.answers = [] ∧ st2.sessionId = none ∧
        r.total_questions = exercises.length ∧
        r.results.length = exercises.length ∧
        (∀ item ∈ r.results,
          item.is_correct = true ↔
            upperStr item.user_answer = upperStr item.correct_answer) ∧
        r.correct_answers = r.results.countP (·.is_correct) ∧
        r.percentage = (if 0 < exercises.length then
          (r.correct_answers : ℚ) / (exercises.length : ℚ) * 100 else 0) ∧
        (r.percentage ≥ 80 → r.level = "Отлично! 🎉") ∧
        (r.percentage < 80 → r.percentage ≥ 60 → r.level = "Хорошо! 👍") ∧
        (r.percentage < 60 → r.percentage ≥ 40 → r.level = "Удовлетворительно 📚") ∧
        (r.percentage < 40 → r.level = "Требует улучшения 💪") := by
  constructor
  · intro h
    simp [finishExerciseSession, h]
  · intro exercises hact
    simp only [finishExerciseSession, hact]
    refine ⟨_, _, rfl, rfl, rfl, rfl, rfl, by simp, ?_, ?_, ?_, ?_, ?_, ?_, ?_⟩
    · intro item him
      rw [List.mem_map] at him
      obtain ⟨ex, -, rfl⟩ := him
      simp
    · simp [List.countP_eq_length_filter]
    · simp only [List.countP_eq_length_filter]
    all_goals
      simp only [levelOf]
    · intro h80
      rw [if_pos h80]
    · intro h80 h60
      rw [if_neg (by exact not_le.mpr h80), if_pos h60]
    · intro h60 h40
      rw [if_neg (by exact not_le.mpr (lt_of_lt_of_le h60 (by norm_num))),
        if_neg (by exact not_le.mpr h60), if_pos h40]
    · intro h40
      rw [if_neg (by exact not_le.mpr (lt_of_lt_of_le h40 (by norm_num))),
        if_neg (by exact not_le.mpr (lt_of_lt_of_le h40 (by norm_num))),
        if_neg (by exact not_le.mpr h40)]

/-- C4 witness: the theorem at a concrete empty state and at a concrete
    active session. -/
theorem C4_finish_reports_and_clears_witness :
    finishExerciseSession
        { active := none, answers := [], currentIndex := none, sessionId := none } =
      (.noSession,
        { active := none, answers := [], currentIndex := none, sessionId := none }) ∧
    (finishExerciseSession c2State).2.sessionId = none := by
  constructor
  · exact (C4_finish_reports_and_clears
      { active := none, answers := [], currentIndex := none, sessionId := none }).1 rfl
  · obtain ⟨r, st2, heq, -, -, hsid, -⟩ :=
      (C4_finish_reports_and_clears c2State).2 (fallbackExercises "vocabulary") rfl
    rw [heq]
    exact hsid

/-- C5 (confirmed): with no test in progress, a user whose persisted
    record has `has_completed_test = false` and no persisted test-result
    file is blocked with the redirect-to-diagnostic prompt (the wrapped
    exercise command is suppressed), while a non-empty persisted result
    file self-heals the flag to `true` and lets the user through. -/
theorem C5_test_completion_gate (env : GateEnv)
    (hactive : env.activeTest = false)
    (hflag : env.userFile = some (some false)) :
    (env.testFile = none →
      requireTestCompletion env = (.blockedRedirect, env)) ∧
    (∀ rs, env.testFile = some (some rs) → rs ≠ [] →
      requireTestCompletion env = (.allowed, markTestCompleted env) ∧
        hasCompletedTestDB (markTestCompleted env).userFile = true) := by
  have hdb : hasCompletedTestDB env.userFile = false := by
    rw [hflag]; rfl
  constructor
  · intro hfile
    simp [requireTestCompletion, hactive, hdb, hfile]
  · intro rs hfile hne
    refine ⟨?_, rfl⟩
    simp [requireTestCompletion, hactive, hdb, hfile, List.length_pos.mpr hne]

/-- A persisted test-result record with all counters at zero, used only
    to instantiate witnesses. -/
def emptyTestResults : TestResults :=
  { total_questions := 0, score := 0, percentage := 0, answers := []
    section_stats := [], topic_stats := [], strengths := [], weaknesses := [] }

/-- C5 witness: the gate at two concrete environments — no result file
    (blocked) and a one-entry result file (healed and allowed). -/
theorem C5_test_completion_gate_witness :
    requireTestCompletion
        { activeTest := false, userFile := some (some false), testFile := none } =
      (.blockedRedirect,
        { activeTest := false, userFile := some (some false), testFile := none }) ∧
    requireTestCompletion
        { activeTest := false, userFile := some (some false)
          testFile := some (some [emptyTestResults]) } =
      (.allowed,
        markTestCompleted
          { activeTest := false, userFile := some (some false)
            testFile := some (some [emptyTestResults]) }) := by
  constructor
  · exact (C5_test_completion_gate _ rfl rfl).1 rfl
  · exact ((C5_test_completion_gate _ rfl rfl).2 [emptyTestResults] rfl
      (by simp)).1

/-- C6 (confirmed): `process_answer` past the last question is a no-op;
    otherwise it appends exactly the log entry for the question at the
    cursor, adds one to the score exactly when the submitted label equals
    the question's correct answer, and advances the cursor by one. -/
theorem C6_process_answer (s : TestSession) (answer : String) :
    (s.current_question ≥ s.questions.length → processAnswer answer s = s) ∧
    (∀ h : s.current_question < s.questions.length,
      (processAnswer answer s).answers = s.answers ++
        [{ question_id := (s.questions.get ⟨s.current_question, h⟩).id
           user_answer := answer
           correct_answer := (s.questions.get ⟨s.current_question, h⟩).correct_answer
           is_correct := answer = (s.questions.get ⟨s.current_question, h⟩).correct_answer
           sectionName := (s.questions.get ⟨s.current_question, h⟩).sectionName
           topic := inferTopic (s.questions.get ⟨s.current_question, h⟩).sectionName
             (s.questions.get ⟨s.current_question, h⟩).question
             (s.questions.get ⟨s.current_question, h⟩).explanation
             (s.questions.get ⟨s.current_question, h⟩).options }] ∧
      (processAnswer answer s).score =
        s.score + (if answer = (s.questions.get ⟨s.current_question, h⟩).correct_answer
          then 1 else 0) ∧
      (processAnswer answer s).current_question = s.current_question + 1) := by
  constructor
  · intro hge
    simp only [processAnswer]
    rw [dif_neg (not_lt.mpr hge)]
  · intro h
    simp only [processAnswer]
    rw [dif_pos h]
    exact ⟨rfl, rfl, rfl⟩

/-- The single built-in default question of `create_default_test`, used to
    instantiate witnesses. -/
def defaultQuestion : TestQuestion :=
  { id := 1
    sectionName := "grammar"
    question := "By the time we arrived at the theatre, the performance ______."
    options := ["a) had already started", "b) already started",
      "c) has already started", "d) was already starting"]
    explanation := ""
    correct_answer := "a" }

/-- C6 witness: the theorem at a fresh one-question session and at a
    finished session. -/
theorem C6_process_answer_witness :
    (processAnswer "a" (startTestForUser [defaultQuestion])).current_question = 1 ∧
    processAnswer "a"
        { questions := [defaultQuestion], current_question := 1, score := 1
          answers := [] } =
      { questions := [defaultQuestion], current_question := 1, score := 1
        answers := [] } := by
  constructor
  · exact ((C6_process_answer (startTestForUser [defaultQuestion]) "a").2
      (by decide)).2.2
  · exact (C6_process_answer
      { questions := [defaultQuestion], current_question := 1, score := 1
        answers := [] } "a").1 (by decide)

/-- `process_answer` never touches the question list. -/
theorem processAnswer_questions (a : String) (s : TestSession) :
    (processAnswer a s).questions = s.questions := by
  simp only [processAnswer]
  split <;> rfl

/-- A whole answer run never touches the question list. -/
theorem runAnswers_questions (answers : List String) :
    ∀ s : TestSession, (runAnswers answers s).questions = s.questions := by
  induction answers with
  | nil => intro s; rfl
  | cons a rest ih =>
      intro s
      simpa [runAnswers, List.foldl_cons, processAnswer_questions] using
        (ih (processAnswer a s)).trans (processAnswer_questions a s)

/-- `process_answer` keeps the score equal to the number of correct
    entries in the log. -/
theorem processAnswer_score_inv (a : String) (s : TestSession)
    (hs : s.score = s.answers.countP (·.is_correct)) :
    (processAnswer a s).score =
      (processAnswer a s).answers.countP (·.is_correct) := by
  simp only [processAnswer]
  split
  next hlt =>
    by_cases hac : a = (s.questions.get ⟨s.current_question, hlt⟩).correct_answer
    · simp [hs, hac, List.countP_append, List.countP_cons]
    · simp [hs, hac, List.countP_append, List.countP_cons]
  next => exact hs

/-- A whole answer run keeps the score equal to the number of correct
    entries in the log. -/
theorem runAnswers_score_inv (answers : List String) :
    ∀ s : TestSession, s.score = s.answers.countP (·.is_correct) →
      (runAnswers answers s).score =
        (runAnswers answers s).answers.countP (·.is_correct) := by
  induction answers with
  | nil => intro s hs; exact hs
  | cons a rest ih =>
      intro s hs
      exact ih (processAnswer a s) (processAnswer_score_inv a s hs)

/-- C7 (confirmed): for any question bank and any sequence of submitted
    labels, the percentage reported by `finish_test` is `100 · correct /
    total` where `correct` counts the correct entries of the answer log,
    and an empty bank reports percentage `0` instead of dividing by
    zero. -/
theorem C7_finish_test_percentage (bank : List TestQuestion)
    (answers : List String) :
    ∃ r, finishTest (some (runAnswers answers (startTestForUser bank))) =
        (some r, none) ∧
      r.total_questions = bank.length ∧
      r.percentage = (if bank.length = 0 then 0 else
        100 * (((runAnswers answers (startTestForUser bank)).answers.countP
          (·.is_correct) : ℚ)) / (bank.length : ℚ)) := by
  have hq : (runAnswers answers (startTestForUser bank)).questions = bank :=
    runAnswers_questions answers (startTestForUser bank)
  have hsc : (runAnswers answers (startTestForUser bank)).score =
      (runAnswers answers (startTestForUser bank)).answers.countP (·.is_correct) :=
    runAnswers_score_inv answers (startTestForUser bank) (by simp [startTestForUser])
  refine ⟨_, rfl, by simp [finishTest, hq], ?_⟩
  simp only [finishTest, hq, hsc]
  rcases Nat.eq_zero_or_pos bank.length with h0 | h0
  · simp [h0]
  · rw [if_pos h0, if_neg (Nat.pos_iff_ne_zero.mp h0)]
    have hne : (bank.length : ℚ) ≠ 0 := by
      exact_mod_cast Nat.pos_iff_ne_zero.mp h0
    field_simp
    ring

/-- Every key of an aggregation is a value taken somewhere in the list,
    and conversely. -/
theorem mem_uniqueKeys {tp : String} : ∀ l : List String,
    tp ∈ uniqueKeys l ↔ tp ∈ l := by
  intro l
  induction l with
  | nil => simp [uniqueKeys]
  | cons x xs ih =>
      by_cases hx : tp = x
      · subst hx
        simp [uniqueKeys]
      · simp [uniqueKeys, hx, List.mem_filter, ih]

/-- A topic that occurs in the log has a positive answer total. -/
theorem statTotal_pos_of_mem {tp : String} {answers : List AnswerEntry}
    (h : tp ∈ statKeys (·.topic) answers) :
    0 < statTotal (·.topic) tp answers := by
  rw [statKeys, mem_uniqueKeys, List.mem_map] at h
  obtain ⟨a, ha, hat⟩ := h
  have : a ∈ answers.filter (fun x => x.topic = tp) :=
    List.mem_filter.mpr ⟨ha, by simp [hat]⟩
  have := List.length_pos.mpr (List.ne_nil_of_mem this)
  simpa [statTotal] using this

/-- C8 (confirmed): in the results of `finish_test`, a logged topic is a
    strength exactly when its accuracy is ≥ 0.7 and a weakness exactly
    when its accuracy is ≤ 0.6; a topic with accuracy strictly between
    0.6 and 0.7 lands in neither list. -/
theorem C8_strengths_weaknesses (s : TestSession) (tp : String) :
    ∃ r, finishTest (some s) = (some r, none) ∧
      (tp ∈ statKeys (·.topic) s.answers ↔ ∃ a ∈ s.answers, a.topic = tp) ∧
      (tp ∈ r.strengths ↔ tp ∈ statKeys (·.topic) s.answers ∧
        ((statCorrect (·.topic) tp s.answers : ℚ) /
          (statTotal (·.topic) tp s.answers : ℚ)) ≥ 7/10) ∧
      (tp ∈ r.weaknesses ↔ tp ∈ statKeys (·.topic) s.answers ∧
        ((statCorrect (·.topic) tp s.answers : ℚ) /
          (statTotal (·.topic) tp s.answers : ℚ)) ≤ 6/10) ∧
      ((6/10 : ℚ) < ((statCorrect (·.topic) tp s.answers : ℚ) /
          (statTotal (·.topic) tp s.answers : ℚ)) →
        ((statCorrect (·.topic) tp s.answers : ℚ) /
          (statTotal (·.topic) tp s.answers : ℚ)) < 7/10 →
        tp ∉ r.strengths ∧ tp ∉ r.weaknesses) := by
  refine ⟨_, rfl, by rw [statKeys, mem_uniqueKeys, List.mem_map], ?_, ?_, ?_⟩
  · simp only [List.mem_filter, decide_eq_true_eq]
    constructor
    · rintro ⟨hmem, -, hacc⟩
      exact ⟨hmem, hacc⟩
    · rintro ⟨hmem, hacc⟩
      exact ⟨hmem, statTotal_pos_of_mem hmem, hacc⟩
  · simp only [List.mem_filter, decide_eq_true_eq]
    constructor
    · rintro ⟨hmem, -, -, hacc⟩
      exact ⟨hmem, hacc⟩
    · rintro ⟨hmem, hacc⟩
      refine ⟨hmem, statTotal_pos_of_mem hmem, ?_, hacc⟩
      intro hge
      linarith
  · intro hlo hhi
    simp only [List.mem_filter, decide_eq_true_eq]
    constructor
    · rintro ⟨-, -, hacc⟩
      linarith
    · rintro ⟨-, -, -, hacc⟩
      linarith

/-- One append, written as the last-20 suffix of the grown transcript. -/
theorem addToChatHistory_eq (m : ChatMsg) (h : List ChatMsg) :
    addToChatHistory m h = (h ++ [m]).drop ((h ++ [m]).length - 20) := by
  simp only [addToChatHistory]
  split
  · rfl
  next hng =>
    have h0 : (h ++ [m]).length - 20 = 0 := by
      simp only [not_lt] at hng
      omega
    rw [h0, List.drop_zero]

/-- One append keeps the transcript within the 20-entry cap. -/
theorem addToChatHistory_length (m : ChatMsg) (h : List ChatMsg) :
    (addToChatHistory m h).length ≤ 20 := by
  simp only [addToChatHistory]
  split
  next hgt =>
    simp only [List.length_drop]
    omega
  next hng =>
    simp only [not_lt] at hng
    omega

/-- Folding appends over any transcript within the cap yields exactly the
    last-20 suffix of the full message sequence. -/
theorem chatFold_eq (msgs : List ChatMsg) :
    ∀ h : List ChatMsg, h.length ≤ 20 →
      msgs.foldl (fun acc m => addToChatHistory m acc) h =
        (h ++ msgs).drop ((h ++ msgs).length - 20) := by
  induction msgs with
  | nil =>
      intro h hle
      simp [Nat.sub_eq_zero_of_le hle]
  | cons m ms ih =>
      intro h hle
      rw [List.foldl_cons,
        ih (addToChatHistory m h) (addToChatHistory_length m h),
        addToChatHistory_eq m h]
      have hd : (h ++ [m]).length - 20 ≤ (h ++ [m]).length := by omega
      rw [← List.drop_append_of_le_length hd, List.drop_drop]
      have hassoc : h ++ [m] ++ ms = h ++ m :: ms := by simp
      rw [hassoc]
      congr 1
      simp only [List.length_drop, List.length_append, List.length_cons,
        List.length_nil]
      omega

/-- C9 (confirmed): after any sequence of appends, the per-user chat
    transcript holds at most 20 entries, namely exactly the 20 most
    recent messages in order (older entries evicted first). -/
theorem C9_chat_history_bounded (msgs : List ChatMsg) :
    (chatHistoryAfter msgs).length ≤ 20 ∧
      chatHistoryAfter msgs = msgs.drop (msgs.length - 20) := by
  have h := chatFold_eq msgs [] (by simp)
  simp only [List.nil_append] at h
  constructor
  · rw [chatHistoryAfter, h]
    simp only [List.length_drop]
    omega
  · rw [chatHistoryAfter, h]

/-- C10 (confirmed): `finish_test` for a user with no active fixed-test
    session returns `None` (not an explicit error record or zeroed
    results), and the `test_continue` handler passes that `None` straight
    to the results-rendering path. -/
theorem C10_finish_none_unchecked :
    finishTest none = (none, none) ∧
      testContinue none = (TestActionOutcome.showResults none, none) :=
  ⟨rfl, rfl⟩

end EgeBot
